import Mathlib

/-
Verification of the Formulate ambient type declarations (src/index.d.ts).

The repository declares TypeScript types and a `Context` interface; it has no
runtime code.  We embed the declaration surface shallowly: each TypeScript
type becomes a decidable predicate (a `Bool`-valued function) on a JSON-like
value type `JSValue`, read off field by field from the source.  Structural
typing is modelled faithfully: an object value inhabits an object type when
every declared field is present with the declared type (the source uses no
optional `?` markers, so every declared field is required); extra fields are
allowed, as in TypeScript assignability.  The `Context` interface is embedded
as an enumeration of its operations together with maps giving each
operation's declared options-parameter type, choices-parameter type and
resolved-result type, exactly as written in the source.
-/

namespace Formulate

/-- Values of the JSON-like data language that form scripts exchange with the
host: strings, numbers (modelled as rationals), booleans, null, arrays and
objects with string-named fields. -/
inductive JSValue where
  | str : String → JSValue
  | num : Rat → JSValue
  | bool : Bool → JSValue
  | null : JSValue
  | arr : List JSValue → JSValue
  | obj : List (String × JSValue) → JSValue

/-- First field of the given name in an object's field list, if any. -/
def lookupField : List (String × JSValue) → String → Option JSValue
  | [], _ => none
  | (k, v) :: rest, n => if k == n then some v else lookupField rest n

/-- The field list has a field of the given name whose value satisfies `p`. -/
def hasField (fs : List (String × JSValue)) (n : String) (p : JSValue → Bool) : Bool :=
  match lookupField fs n with
  | some v => p v
  | none => false

/-- TypeScript `string`. -/
def isStr : JSValue → Bool
  | JSValue.str _ => true
  | _ => false

/-- TypeScript `number`. -/
def isNum : JSValue → Bool
  | JSValue.num _ => true
  | _ => false

/-- TypeScript `boolean`. -/
def isBool : JSValue → Bool
  | JSValue.bool _ => true
  | _ => false

/-- TypeScript `null`. -/
def isNull : JSValue → Bool
  | JSValue.null => true
  | _ => false

/-- A string literal type such as `'GET'`. -/
def strLit (s : String) : JSValue → Bool
  | JSValue.str t => t == s
  | _ => false

/-- A boolean literal type, `true` or `false`. -/
def boolLit (b : Bool) : JSValue → Bool
  | JSValue.bool c => c == b
  | _ => false

/-- TypeScript `Array<t>` for element type `t`. -/
def isArrayOf (p : JSValue → Bool) : JSValue → Bool
  | JSValue.arr vs => vs.all p
  | _ => false

/-- An object type listing required fields with their types; extra fields are
permitted, as in TypeScript structural assignability. -/
def isObjWith (fields : List (String × (JSValue → Bool))) : JSValue → Bool
  | JSValue.obj fs => fields.all fun f => hasField fs f.1 f.2
  | _ => false

/-- A union type `t | u`. -/
def orType (p q : JSValue → Bool) : JSValue → Bool := fun v => p v || q v

/-- Headers (src/index.d.ts lines 2-4): an index-signature object, every
field a string. -/
def Headers : JSValue → Bool
  | JSValue.obj fs => fs.all fun f => isStr f.2
  | _ => false

/-- The union `'GET' | 'POST' | 'OPTIONS' | 'PUT' | 'DELETE'` of
`FetchOptions.method` (line 7). -/
def fetchMethodType : JSValue → Bool :=
  orType (strLit ("GET")) (orType (strLit ("POST"))
    (orType (strLit ("OPTIONS")) (orType (strLit ("PUT")) (strLit ("DELETE")))))

/-- The union `'follow' | 'error' | 'manual'` of `FetchOptions.redirect`
(line 10). -/
def fetchRedirectType : JSValue → Bool :=
  orType (strLit ("follow")) (orType (strLit ("error")) (strLit ("manual")))

/-- FetchOptions (lines 6-13). -/
def FetchOptions : JSValue → Bool :=
  isObjWith [
    ("method", fetchMethodType),
    ("headers", Headers),
    ("body", isStr),
    ("redirect", fetchRedirectType),
    ("referrer", isStr),
    ("integrity", isStr)]

/-- Response (lines 15-56). -/
def Response : JSValue → Bool :=
  isObjWith [
    ("text", isStr),
    ("headers", Headers),
    ("url", isStr),
    ("ok", isBool),
    ("redirected", isBool),
    ("status", isNum),
    ("statusText", isStr),
    ("type", isStr)]

/-- Choice (lines 60-75): `label`, `value` and `image` are all declared
`string` with no optional marker. -/
def Choice : JSValue → Bool :=
  isObjWith [
    ("label", isStr),
    ("value", isStr),
    ("image", isStr)]

/-- OneOrMoreChoices (line 58): the conditional type
`T extends true ? Choice : Choice[]`. -/
def OneOrMoreChoices (T : Bool) : JSValue → Bool :=
  if T then Choice else isArrayOf Choice

/-- PaymentLineItem (lines 91-116): `amount` is declared `number`;
`quantity` is declared `string`. -/
def PaymentLineItem : JSValue → Bool :=
  isObjWith [
    ("amount", isNum),
    ("name", isStr),
    ("description", isStr),
    ("quantity", isStr),
    ("imageUrls", isArrayOf isStr)]

/-- The union `'successful' | 'stripe-not-set-up' | 'failed'` of
`PaymentStatus.status` (line 81). -/
def paymentStatusType : JSValue → Bool :=
  orType (strLit ("successful")) (orType (strLit ("stripe-not-set-up")) (strLit ("failed")))

/-- PaymentStatus (lines 77-89). -/
def PaymentStatus : JSValue → Bool :=
  isObjWith [
    ("status", paymentStatusType),
    ("id", isStr),
    ("lineItems", isArrayOf PaymentLineItem)]

/-- BannerOptions (lines 118-138). -/
def BannerOptions : JSValue → Bool :=
  isObjWith [
    ("unsplash", isStr),
    ("full", isStr),
    ("imageUrl", isStr),
    ("videoUrl", isStr)]

/-- Options (lines 140-167): the base options bag; every field is declared
without an optional marker, and `description` is declared `boolean`. -/
def Options : JSValue → Bool :=
  isObjWith [
    ("description", isBool),
    ("ignore", isBool),
    ("banner", BannerOptions),
    ("name", isStr),
    ("optional", isBool)]

/-- ShortOptions (lines 169-189): the intersection `Options & {email, tel,
url, value : boolean}`. -/
def ShortOptions : JSValue → Bool := fun v =>
  Options v && isObjWith [
    ("email", isBool),
    ("tel", isBool),
    ("url", isBool),
    ("value", isBool)] v

/-- LongOptions (lines 191-196): `Options & {value : boolean}`. -/
def LongOptions : JSValue → Bool := fun v =>
  Options v && isObjWith [("value", isBool)] v

/-- RatingOptions (lines 198-203): `Options & {max : boolean}`. -/
def RatingOptions : JSValue → Bool := fun v =>
  Options v && isObjWith [("max", isBool)] v

/-- SelectOptions (lines 205-210): `Options & {single : T}` for a boolean
literal type `T`. -/
def SelectOptions (T : Bool) : JSValue → Bool := fun v =>
  Options v && isObjWith [("single", boolLit T)] v

/-- MultiOptions (lines 212-222): `Options & {single : T, hideNumbers :
boolean}`. -/
def MultiOptions (T : Bool) : JSValue → Bool := fun v =>
  Options v && isObjWith [("single", boolLit T), ("hideNumbers", isBool)] v

/-- PaymentOptions (lines 224-236): `Options & {currency : string, items :
Array<PaymentLineItem>}`. -/
def PaymentOptions : JSValue → Bool := fun v =>
  Options v && isObjWith [
    ("currency", isStr),
    ("items", isArrayOf PaymentLineItem)] v

/-- The union `string | Choice` of the element type of the `choices`
parameter of `select` and `multi` (lines 275 and 284). -/
def stringOrChoice : JSValue → Bool := orType isStr Choice

/-- The operations of the `Context` interface (lines 243-362), `select` and
`multi` indexed by the boolean literal instantiating their type parameter
`T extends boolean`. -/
inductive ContextOp where
  | short : ContextOp
  | long : ContextOp
  | rating : ContextOp
  | select : Bool → ContextOp
  | multi : Bool → ContextOp
  | payment : ContextOp
  | hidden : ContextOp
  | statement : ContextOp
  | fetch : ContextOp
  | log : ContextOp
  | error : ContextOp
  | interpolate : ContextOp
  | interp : ContextOp
  | i : ContextOp
  | param : ContextOp

/-- The declared type of each operation's options parameter, `none` for the
operations that take no options bag.  Note line 258: `long` is declared with
`options: ShortOptions`, not `LongOptions`. -/
def optionsTypeOf : ContextOp → Option (JSValue → Bool)
  | ContextOp.short => some ShortOptions
  | ContextOp.long => some ShortOptions
  | ContextOp.rating => some RatingOptions
  | ContextOp.select T => some (SelectOptions T)
  | ContextOp.multi T => some (MultiOptions T)
  | ContextOp.payment => some PaymentOptions
  | ContextOp.hidden => some Options
  | ContextOp.statement => some Options
  | ContextOp.fetch => some FetchOptions
  | ContextOp.log => none
  | ContextOp.error => none
  | ContextOp.interpolate => none
  | ContextOp.interp => none
  | ContextOp.i => none
  | ContextOp.param => none

/-- The declared type of each operation's `choices` parameter, present only
on `select` and `multi` (lines 275 and 284): `Array<string | Choice>`. -/
def choicesTypeOf : ContextOp → Option (JSValue → Bool)
  | ContextOp.select _ => some (isArrayOf stringOrChoice)
  | ContextOp.multi _ => some (isArrayOf stringOrChoice)
  | _ => none

/-- The declared shape of each operation's result: the resolved value for
the Promise-returning operations, the returned value otherwise. -/
def resolvesTo : ContextOp → (JSValue → Bool)
  | ContextOp.short => isStr
  | ContextOp.long => isStr
  | ContextOp.rating => isStr
  | ContextOp.select T => OneOrMoreChoices T
  | ContextOp.multi T => OneOrMoreChoices T
  | ContextOp.payment => PaymentStatus
  | ContextOp.hidden => isStr
  | ContextOp.statement => isNull
  | ContextOp.fetch => Response
  | ContextOp.log => isNull
  | ContextOp.error => isNull
  | ContextOp.interpolate => isStr
  | ContextOp.interp => isStr
  | ContextOp.i => isStr
  | ContextOp.param => orType isStr isNull

/-- A concrete BannerOptions value, used to build sample option bags. -/
def sampleBanner : JSValue :=
  JSValue.obj [
    ("unsplash", JSValue.str ("cats")),
    ("full", JSValue.str ("full")),
    ("imageUrl", JSValue.str ("https://img.example/a.png")),
    ("videoUrl", JSValue.str ("https://vid.example/a.mp4"))]

/-- Field list supplying all five fields of the base Options bag. -/
def optionsFields : List (String × JSValue) := [
  ("description", JSValue.bool false),
  ("ignore", JSValue.bool false),
  ("banner", sampleBanner),
  ("name", JSValue.str ("q1")),
  ("optional", JSValue.bool true)]

/-- A concrete value of the base Options type and of no extension of it. -/
def sampleOptions : JSValue := JSValue.obj optionsFields

/-- A concrete LongOptions value: the base fields plus `value`, lacking the
`email`, `tel` and `url` fields of ShortOptions. -/
def sampleLongOptions : JSValue :=
  JSValue.obj (optionsFields ++ [("value", JSValue.bool true)])

/-- Field list of a concrete ShortOptions value. -/
def shortOptionsFields : List (String × JSValue) :=
  optionsFields ++ [
    ("email", JSValue.bool true),
    ("tel", JSValue.bool false),
    ("url", JSValue.bool false),
    ("value", JSValue.bool false)]

/-- A concrete ShortOptions value. -/
def sampleShortOptions : JSValue := JSValue.obj shortOptionsFields

/-- Field list of a concrete SelectOptions true value. -/
def singleTrueFields : List (String × JSValue) :=
  optionsFields ++ [("single", JSValue.bool true)]

/-- Field list of a concrete Choice value. -/
def sampleChoiceFields : List (String × JSValue) := [
  ("label", JSValue.str ("Red")),
  ("value", JSValue.str ("red")),
  ("image", JSValue.str ("https://img.example/red.png"))]

/-- A concrete Choice value. -/
def sampleChoice : JSValue := JSValue.obj sampleChoiceFields

/-- Field list of a concrete FetchOptions value. -/
def sampleFetchOptionsFields : List (String × JSValue) := [
  ("method", JSValue.str ("POST")),
  ("headers", JSValue.obj [("accept", JSValue.str ("text/plain"))]),
  ("body", JSValue.str ("payload")),
  ("redirect", JSValue.str ("follow")),
  ("referrer", JSValue.str ("")),
  ("integrity", JSValue.str (""))]

/-- Field list of a concrete PaymentStatus value. -/
def samplePaymentStatusFields : List (String × JSValue) := [
  ("status", JSValue.str ("successful")),
  ("id", JSValue.str ("pi_1")),
  ("lineItems", JSValue.arr [])]

theorem hasField_exists {fs : List (String × JSValue)} {n : String}
    {p : JSValue → Bool} (h : hasField fs n p = true) :
    ∃ v, lookupField fs n = some v ∧ p v = true := by
  unfold hasField at h
  cases hl : lookupField fs n with
  | none => rw [hl] at h; exact absurd h (by simp)
  | some v => rw [hl] at h; exact ⟨v, rfl, h⟩

theorem isBool_exists {v : JSValue} (h : isBool v = true) :
    ∃ b, v = JSValue.bool b := by
  cases v <;> first
    | exact ⟨_, rfl⟩
    | simp [isBool] at h

theorem isStr_exists {v : JSValue} (h : isStr v = true) :
    ∃ s, v = JSValue.str s := by
  cases v <;> first
    | exact ⟨_, rfl⟩
    | simp [isStr] at h

theorem paymentStatusType_cases {v : JSValue}
    (h : paymentStatusType v = true) :
    ∃ s, v = JSValue.str s ∧
      (s = "successful" ∨ s = "stripe-not-set-up" ∨ s = "failed") := by
  cases v <;> first
    | exact ⟨_, rfl, by simpa [paymentStatusType, orType, strLit] using h⟩
    | simp [paymentStatusType, orType, strLit] at h

theorem fetchMethodType_cases {v : JSValue}
    (h : fetchMethodType v = true) :
    ∃ s, v = JSValue.str s ∧
      (s = "GET" ∨ s = "POST" ∨ s = "OPTIONS" ∨ s = "PUT" ∨ s = "DELETE") := by
  cases v <;> first
    | exact ⟨_, rfl, by simpa [fetchMethodType, orType, strLit] using h⟩
    | simp [fetchMethodType, orType, strLit] at h

theorem fetchRedirectType_cases {v : JSValue}
    (h : fetchRedirectType v = true) :
    ∃ s, v = JSValue.str s ∧
      (s = "follow" ∨ s = "error" ∨ s = "manual") := by
  cases v <;> first
    | exact ⟨_, rfl, by simpa [fetchRedirectType, orType, strLit] using h⟩
    | simp [fetchRedirectType, orType, strLit] at h

theorem Options_fields {fs : List (String × JSValue)}
    (h : Options (JSValue.obj fs) = true) :
    hasField fs ("description") isBool = true ∧
    hasField fs ("ignore") isBool = true ∧
    hasField fs ("banner") BannerOptions = true ∧
    hasField fs ("name") isStr = true ∧
    hasField fs ("optional") isBool = true := by
  simpa [Options, isObjWith, List.all_cons, Bool.and_eq_true] using h

theorem boolLit_eq {b : Bool} {v : JSValue} (h : boolLit b v = true) :
    v = JSValue.bool b := by
  cases v <;> simp_all [boolLit]

theorem hasField_str {fs : List (String × JSValue)} {n : String}
    (h : hasField fs n isStr = true) :
    ∃ s, lookupField fs n = some (JSValue.str s) := by
  obtain ⟨v, hl, hv⟩ := hasField_exists h
  obtain ⟨s, rfl⟩ := isStr_exists hv
  exact ⟨s, hl⟩

theorem hasField_bool {fs : List (String × JSValue)} {n : String}
    (h : hasField fs n isBool = true) :
    ∃ b, lookupField fs n = some (JSValue.bool b) := by
  obtain ⟨v, hl, hv⟩ := hasField_exists h
  obtain ⟨b, rfl⟩ := isBool_exists hv
  exact ⟨b, hl⟩

theorem hasField_isSome {fs : List (String × JSValue)} {n : String}
    {p : JSValue → Bool} (h : hasField fs n p = true) :
    (lookupField fs n).isSome = true := by
  obtain ⟨v, hl, _⟩ := hasField_exists h
  simp [hl]

/-- C1: `select` instantiated at the boolean literal T is declared to take an
options bag whose `single` field holds the boolean T, and its resolved type is
`OneOrMoreChoices T`, which is the single-Choice type when T is true and the
array-of-Choice type when T is false; a single Choice is never an array. -/
theorem select_single_resolution :
    (∀ T : Bool, resolvesTo (ContextOp.select T) = OneOrMoreChoices T)
    ∧ OneOrMoreChoices true = Choice
    ∧ OneOrMoreChoices false = isArrayOf Choice
    ∧ (∀ (T : Bool) (fs : List (String × JSValue)),
        SelectOptions T (JSValue.obj fs) = true →
        lookupField fs ("single") = some (JSValue.bool T))
    ∧ (∀ v : JSValue, Choice v = true → isArrayOf Choice v = false) := by
  refine ⟨fun T => rfl, rfl, rfl, ?_, ?_⟩
  · intro T fs h
    simp only [SelectOptions, Bool.and_eq_true] at h
    have hs : hasField fs ("single") (boolLit T) = true := by
      simpa [isObjWith] using h.2
    obtain ⟨v, hl, hv⟩ := hasField_exists hs
    rw [boolLit_eq hv] at hl
    exact hl
  · intro v h
    cases v <;> simp_all [Choice, isObjWith, isArrayOf]

/-- C1 witness: a concrete options bag with `single: true` is a valid
SelectOptions true value whose `single` field is the boolean true, and the
concrete Choice value is not an array of Choice. -/
theorem select_single_resolution_witness :
    lookupField singleTrueFields ("single") = some (JSValue.bool true)
    ∧ isArrayOf Choice sampleChoice = false :=
  ⟨select_single_resolution.2.2.2.1 true singleTrueFields (by decide),
   select_single_resolution.2.2.2.2 sampleChoice (by decide)⟩

/-- C2, as claimed, is false: the declared Choice type has no optional marker
on `image`, so a value supplying only `label` and `value` is not a Choice. -/
theorem choice_image_required_counterexample :
    Choice (JSValue.obj [
      ("label", JSValue.str ("Red")),
      ("value", JSValue.str ("red"))]) = false := by
  decide

/-- C2 amended: every Choice value has required string fields `label`,
`value` and `image`; `image` is required, not optional. -/
theorem choice_fields_required :
    ∀ fs : List (String × JSValue), Choice (JSValue.obj fs) = true →
      (∃ s, lookupField fs ("label") = some (JSValue.str s))
      ∧ (∃ s, lookupField fs ("value") = some (JSValue.str s))
      ∧ (∃ s, lookupField fs ("image") = some (JSValue.str s)) := by
  intro fs h
  simp only [Choice, isObjWith, List.all_cons, List.all_nil,
    Bool.and_eq_true, Bool.and_true, and_true] at h
  exact ⟨hasField_str h.1, hasField_str h.2.1, hasField_str h.2.2⟩

/-- C2 amended witness: the concrete Choice value supplies all three string
fields. -/
theorem choice_fields_required_witness :
    (∃ s, lookupField sampleChoiceFields ("label") = some (JSValue.str s))
    ∧ (∃ s, lookupField sampleChoiceFields ("value") = some (JSValue.str s))
    ∧ (∃ s, lookupField sampleChoiceFields ("image") = some (JSValue.str s)) :=
  choice_fields_required sampleChoiceFields (by decide)

/-- C3, as claimed, is false: the base Options type declares all five fields
without optional markers, so the empty bag is not a valid Options value, and
`hidden` and `statement` are the operations declared with the base Options
bag. -/
theorem options_empty_bag_counterexample :
    Options (JSValue.obj []) = false
    ∧ optionsTypeOf ContextOp.hidden = some Options
    ∧ optionsTypeOf ContextOp.statement = some Options :=
  ⟨by decide, rfl, rfl⟩

/-- C3 amended: all five fields `description`, `ignore`, `banner`, `name`,
`optional` are required: every valid base Options value supplies each of
them. -/
theorem options_all_fields_required :
    ∀ fs : List (String × JSValue), Options (JSValue.obj fs) = true →
      (lookupField fs ("description")).isSome = true
      ∧ (lookupField fs ("ignore")).isSome = true
      ∧ (lookupField fs ("banner")).isSome = true
      ∧ (lookupField fs ("name")).isSome = true
      ∧ (lookupField fs ("optional")).isSome = true := by
  intro fs h
  obtain ⟨h1, h2, h3, h4, h5⟩ := Options_fields h
  exact ⟨hasField_isSome h1, hasField_isSome h2, hasField_isSome h3,
    hasField_isSome h4, hasField_isSome h5⟩

/-- C3 amended witness: the concrete bag supplying all five fields is a valid
Options value and indeed has each field present. -/
theorem options_all_fields_required_witness :
    (lookupField optionsFields ("description")).isSome = true
    ∧ (lookupField optionsFields ("ignore")).isSome = true
    ∧ (lookupField optionsFields ("banner")).isSome = true
    ∧ (lookupField optionsFields ("name")).isSome = true
    ∧ (lookupField optionsFields ("optional")).isSome = true :=
  options_all_fields_required optionsFields (by decide)

/-- C4: for every boolean T, `multi` and `select` are declared with the same
resolved type, one Choice at T = true and an array of Choice at T = false. -/
theorem multi_select_same_resolution :
    ∀ T : Bool,
      resolvesTo (ContextOp.multi T) = resolvesTo (ContextOp.select T)
      ∧ resolvesTo (ContextOp.multi true) = Choice
      ∧ resolvesTo (ContextOp.multi false) = isArrayOf Choice
      ∧ resolvesTo (ContextOp.select true) = Choice
      ∧ resolvesTo (ContextOp.select false) = isArrayOf Choice :=
  fun _ => ⟨rfl, rfl, rfl, rfl, rfl⟩

/-- C5: `payment` is declared to resolve to PaymentStatus, and in every
PaymentStatus value the `status` field is exactly one of the three strings
`successful`, `stripe-not-set-up`, `failed`. -/
theorem payment_status_closed :
    resolvesTo ContextOp.payment = PaymentStatus
    ∧ ∀ fs : List (String × JSValue), PaymentStatus (JSValue.obj fs) = true →
        ∃ s, lookupField fs ("status") = some (JSValue.str s)
          ∧ (s = "successful" ∨ s = "stripe-not-set-up" ∨ s = "failed") := by
  refine ⟨rfl, ?_⟩
  intro fs h
  simp only [PaymentStatus, isObjWith, List.all_cons, List.all_nil,
    Bool.and_eq_true, Bool.and_true, and_true] at h
  obtain ⟨v, hl, hv⟩ := hasField_exists h.1
  obtain ⟨s, rfl, hs⟩ := paymentStatusType_cases hv
  exact ⟨s, hl, hs⟩

/-- C5 witness: the concrete PaymentStatus value has status `successful`,
one of the three admitted strings. -/
theorem payment_status_closed_witness :
    ∃ s, lookupField samplePaymentStatusFields ("status") = some (JSValue.str s)
      ∧ (s = "successful" ∨ s = "stripe-not-set-up" ∨ s = "failed") :=
  payment_status_closed.2 samplePaymentStatusFields (by decide)

/-- C6: `fetch` is declared with options of type FetchOptions, and in every
FetchOptions value the `method` field is one of exactly `GET`, `POST`,
`OPTIONS`, `PUT`, `DELETE` and the `redirect` field one of exactly `follow`,
`error`, `manual`. -/
theorem fetch_method_redirect_closed :
    optionsTypeOf ContextOp.fetch = some FetchOptions
    ∧ ∀ fs : List (String × JSValue), FetchOptions (JSValue.obj fs) = true →
        (∃ m, lookupField fs ("method") = some (JSValue.str m)
          ∧ (m = "GET" ∨ m = "POST" ∨ m = "OPTIONS" ∨ m = "PUT" ∨ m = "DELETE"))
        ∧ (∃ r, lookupField fs ("redirect") = some (JSValue.str r)
          ∧ (r = "follow" ∨ r = "error" ∨ r = "manual")) := by
  refine ⟨rfl, ?_⟩
  intro fs h
  simp only [FetchOptions, isObjWith, List.all_cons, List.all_nil,
    Bool.and_eq_true, Bool.and_true, and_true] at h
  constructor
  · obtain ⟨v, hl, hv⟩ := hasField_exists h.1
    obtain ⟨m, rfl, hm⟩ := fetchMethodType_cases hv
    exact ⟨m, hl, hm⟩
  · obtain ⟨v, hl, hv⟩ := hasField_exists h.2.2.2.1
    obtain ⟨r, rfl, hr⟩ := fetchRedirectType_cases hv
    exact ⟨r, hl, hr⟩

/-- C6 witness: the concrete FetchOptions value has method `POST` and
redirect `follow`, members of the two admitted sets. -/
theorem fetch_method_redirect_closed_witness :
    (∃ m, lookupField sampleFetchOptionsFields ("method") = some (JSValue.str m)
      ∧ (m = "GET" ∨ m = "POST" ∨ m = "OPTIONS" ∨ m = "PUT" ∨ m = "DELETE"))
    ∧ (∃ r, lookupField sampleFetchOptionsFields ("redirect") = some (JSValue.str r)
      ∧ (r = "follow" ∨ r = "error" ∨ r = "manual")) :=
  fetch_method_redirect_closed.2 sampleFetchOptionsFields (by decide)

/-- C7, as claimed, is false: `amount` is declared with type `number`, so a
PaymentLineItem whose amount is the negative number -1, or the fractional
number 1/2, is admitted by the declared type. -/
theorem payment_amount_negative_admissible :
    PaymentLineItem (JSValue.obj [
      ("amount", JSValue.num (-1)),
      ("name", JSValue.str ("widget")),
      ("description", JSValue.str ("a widget")),
      ("quantity", JSValue.str ("1")),
      ("imageUrls", JSValue.arr [])]) = true
    ∧ ((-1 : Rat) < 0)
    ∧ PaymentLineItem (JSValue.obj [
      ("amount", JSValue.num (1/2)),
      ("name", JSValue.str ("widget")),
      ("description", JSValue.str ("a widget")),
      ("quantity", JSValue.str ("1")),
      ("imageUrls", JSValue.arr [])]) = true
    ∧ ((0 : Rat) < 1/2 ∧ (1/2 : Rat) < 1) := by
  refine ⟨by decide, by norm_num, by decide, by norm_num⟩

/-- C7 amended: `amount` is declared with type `number` only: every rational
amount, negative or fractional included, yields a type-admissible
PaymentLineItem; the non-negative-integer reading lives in the doc comment,
not in the declared type. -/
theorem payment_amount_any_number :
    ∀ q : Rat, PaymentLineItem (JSValue.obj [
      ("amount", JSValue.num q),
      ("name", JSValue.str ("widget")),
      ("description", JSValue.str ("a widget")),
      ("quantity", JSValue.str ("1")),
      ("imageUrls", JSValue.arr [])]) = true :=
  fun _ => rfl

/-- C8: `long` is declared with options of type ShortOptions (line 258), so
every valid options bag for `long` supplies the `email`, `tel` and `url`
constraint fields, and LongOptions is neither the declared options type nor
the declared result type of any Context operation. -/
theorem long_uses_short_options :
    optionsTypeOf ContextOp.long = some ShortOptions
    ∧ (∀ fs : List (String × JSValue), ShortOptions (JSValue.obj fs) = true →
        (lookupField fs ("email")).isSome = true
        ∧ (lookupField fs ("tel")).isSome = true
        ∧ (lookupField fs ("url")).isSome = true)
    ∧ (∀ op : ContextOp, optionsTypeOf op ≠ some LongOptions)
    ∧ (∀ op : ContextOp, resolvesTo op ≠ LongOptions) := by
  have key : ∀ (p : JSValue → Bool) (w : JSValue), p w ≠ LongOptions w →
      some p ≠ some LongOptions := by
    intro p w hpw heq
    exact hpw (congrFun (Option.some.inj heq) w)
  have key2 : ∀ (p : JSValue → Bool) (w : JSValue), p w ≠ LongOptions w →
      p ≠ LongOptions := by
    intro p w hpw heq
    exact hpw (congrFun heq w)
  refine ⟨rfl, ?_, ?_, ?_⟩
  · intro fs h
    simp only [ShortOptions, Bool.and_eq_true] at h
    have he : hasField fs ("email") isBool = true
        ∧ hasField fs ("tel") isBool = true
        ∧ hasField fs ("url") isBool = true
        ∧ hasField fs ("value") isBool = true := by
      simpa [isObjWith, List.all_cons, Bool.and_eq_true] using h.2
    exact ⟨hasField_isSome he.1, hasField_isSome he.2.1, hasField_isSome he.2.2.1⟩
  · intro op h
    cases op with
    | short => exact key ShortOptions sampleLongOptions (by decide) h
    | long => exact key ShortOptions sampleLongOptions (by decide) h
    | rating => exact key RatingOptions sampleLongOptions (by decide) h
    | select T => cases T <;> exact key _ sampleLongOptions (by decide) h
    | multi T => cases T <;> exact key _ sampleLongOptions (by decide) h
    | payment => exact key PaymentOptions sampleLongOptions (by decide) h
    | hidden => exact key Options sampleOptions (by decide) h
    | statement => exact key Options sampleOptions (by decide) h
    | fetch => exact key FetchOptions sampleLongOptions (by decide) h
    | log => exact Option.noConfusion h
    | error => exact Option.noConfusion h
    | interpolate => exact Option.noConfusion h
    | interp => exact Option.noConfusion h
    | i => exact Option.noConfusion h
    | param => exact Option.noConfusion h
  · intro op
    cases op with
    | short => exact key2 isStr sampleLongOptions (by decide)
    | long => exact key2 isStr sampleLongOptions (by decide)
    | rating => exact key2 isStr sampleLongOptions (by decide)
    | select T => cases T <;> exact key2 _ sampleLongOptions (by decide)
    | multi T => cases T <;> exact key2 _ sampleLongOptions (by decide)
    | payment => exact key2 PaymentStatus sampleLongOptions (by decide)
    | hidden => exact key2 isStr sampleLongOptions (by decide)
    | statement => exact key2 isNull sampleLongOptions (by decide)
    | fetch => exact key2 Response sampleLongOptions (by decide)
    | log => exact key2 isNull sampleLongOptions (by decide)
    | error => exact key2 isNull sampleLongOptions (by decide)
    | interpolate => exact key2 isStr sampleLongOptions (by decide)
    | interp => exact key2 isStr sampleLongOptions (by decide)
    | i => exact key2 isStr sampleLongOptions (by decide)
    | param => exact key2 (orType isStr isNull) sampleLongOptions (by decide)

/-- C8 witness: the concrete ShortOptions bag is a valid options value for
`long` and supplies `email`, `tel` and `url`. -/
theorem long_uses_short_options_witness :
    (lookupField shortOptionsFields ("email")).isSome = true
    ∧ (lookupField shortOptionsFields ("tel")).isSome = true
    ∧ (lookupField shortOptionsFields ("url")).isSome = true :=
  long_uses_short_options.2.1 shortOptionsFields (by decide)

/-- C9: the `choices` parameter of both `select` and `multi` is declared as
`Array<string | Choice>`: any list each of whose elements is a plain string
or a Choice value, mixtures included, inhabits the declared choices type of
both operations. -/
theorem choices_mix_strings_and_choices :
    ∀ (T : Bool) (vs : List JSValue),
      (∀ v ∈ vs, isStr v = true ∨ Choice v = true) →
      choicesTypeOf (ContextOp.select T) = some (isArrayOf stringOrChoice)
      ∧ choicesTypeOf (ContextOp.multi T) = some (isArrayOf stringOrChoice)
      ∧ isArrayOf stringOrChoice (JSValue.arr vs) = true := by
  intro T vs h
  refine ⟨rfl, rfl, ?_⟩
  simp only [isArrayOf, List.all_eq_true]
  intro v hv
  rcases h v hv with hs | hc
  · simp [stringOrChoice, orType, hs]
  · simp [stringOrChoice, orType, hc]

/-- C9 witness: a concrete list mixing a plain string with a Choice object
inhabits the declared choices type. -/
theorem choices_mix_strings_and_choices_witness :
    isArrayOf stringOrChoice (JSValue.arr [JSValue.str ("red"), sampleChoice]) = true :=
  (choices_mix_strings_and_choices true [JSValue.str ("red"), sampleChoice]
    (by decide)).2.2

/-- C10: the base Options bag declares `description: boolean`, so in every
valid Options value the `description` field holds a boolean and is never a
string, and every options bag declared for the question operations subsumes
the base Options bag, so the same holds through each of them. -/
theorem description_is_boolean :
    (∀ fs : List (String × JSValue), Options (JSValue.obj fs) = true →
      (∃ b, lookupField fs ("description") = some (JSValue.bool b))
      ∧ ∀ s, lookupField fs ("description") ≠ some (JSValue.str s))
    ∧ (∀ v, ShortOptions v = true → Options v = true)
    ∧ (∀ v, LongOptions v = true → Options v = true)
    ∧ (∀ v, RatingOptions v = true → Options v = true)
    ∧ (∀ (T : Bool) (v : JSValue), SelectOptions T v = true → Options v = true)
    ∧ (∀ (T : Bool) (v : JSValue), MultiOptions T v = true → Options v = true)
    ∧ (∀ v, PaymentOptions v = true → Options v = true) := by
  refine ⟨?_, ?_, ?_, ?_, ?_, ?_, ?_⟩
  · intro fs h
    obtain ⟨h1, _, _, _, _⟩ := Options_fields h
    obtain ⟨b, hl⟩ := hasField_bool h1
    refine ⟨⟨b, hl⟩, ?_⟩
    intro s hs
    rw [hl] at hs
    exact JSValue.noConfusion (Option.some.inj hs)
  · intro v h
    simp only [ShortOptions, Bool.and_eq_true] at h
    exact h.1
  · intro v h
    simp only [LongOptions, Bool.and_eq_true] at h
    exact h.1
  · intro v h
    simp only [RatingOptions, Bool.and_eq_true] at h
    exact h.1
  · intro T v h
    simp only [SelectOptions, Bool.and_eq_true] at h
    exact h.1
  · intro T v h
    simp only [MultiOptions, Bool.and_eq_true] at h
    exact h.1
  · intro v h
    simp only [PaymentOptions, Bool.and_eq_true] at h
    exact h.1

/-- C10 witness: in the concrete base bag the description field holds a
boolean and is no string, and the concrete ShortOptions value is in
particular a valid base Options value. -/
theorem description_is_boolean_witness :
    ((∃ b, lookupField optionsFields ("description") = some (JSValue.bool b))
      ∧ ∀ s, lookupField optionsFields ("description") ≠ some (JSValue.str s))
    ∧ Options sampleShortOptions = true :=
  ⟨description_is_boolean.1 optionsFields (by decide),
   description_is_boolean.2.1 sampleShortOptions (by decide)⟩

end Formulate
